import Mathlib

/-!
Verification development for the YouDao translate streaming pipeline
(`src/manifold/YoudaoTranslateLLM.py`).  The Python methods `truncate`,
`addAuthParams`, `process_sse_stream`, `detect_polish_option` and the
error paths of `pipe` are shallowly embedded below.  Python strings are
modelled by `String`, with the character-level operations (`lower`,
slicing, `strip`, substring test) implemented over `String.data` so all
definitions compute.  External library behaviour is parameterised:
`json.loads` becomes an arbitrary function `parse : String → Option JObj`
returning the three JSON keys the code inspects, `hashlib.sha256(..)
.hexdigest()` becomes an arbitrary function `sha256hex : String →
String`, and the `requests` response is an explicit outcome value.
-/

namespace Youdao

/-- Python `str.lower()` restricted to the character-wise case map. -/
def lowerStr (s : String) : String := ⟨s.data.map Char.toLower⟩

/-- Python slicing `s[n:]` (by characters). -/
def strDropChars (s : String) (n : Nat) : String := ⟨s.data.drop n⟩

/-- Python slicing `s[:n]` (by characters). -/
def strTakeChars (s : String) (n : Nat) : String := ⟨s.data.take n⟩

/-- Python `p.startswith(q)`. -/
def startsWithStr (s p : String) : Bool := p.data.isPrefixOf s.data

/-- Python substring test `needle in s`. -/
def containsSub (needle s : String) : Bool :=
  (List.range (s.data.length + 1)).any fun i => needle.data.isPrefixOf (s.data.drop i)

/-- Python `str.strip()`: remove leading and trailing whitespace. -/
def strTrim (s : String) : String :=
  ⟨((s.data.dropWhile Char.isWhitespace).reverse.dropWhile Char.isWhitespace).reverse⟩

/-- The three JSON keys `process_sse_stream` inspects in a decoded `data:`
payload (`json.loads` result).  A key that is absent, or whose value is not
a string, is modelled as `none`; the YouDao API delivers all three as JSON
strings. -/
structure JObj where
  transIncre : Option String
  errorCode : Option String
  errorMsg : Option String
deriving DecidableEq

/-- One output frame of the adapter.  `content c` stands for the emitted
bytes `data: ` + `json.dumps({choices:[{delta:{content: c}}]})` + `\n\n`
(error frames are content frames whose text starts with `Error: `), and
`done` stands for the terminal sentinel bytes `data: [DONE]\n\n`. -/
inductive Frame where
  | content (c : String)
  | done
deriving DecidableEq

/-- The loop body plus trailing sentinel of `process_sse_stream`
(lines 77–125).  `parse` models `json.loads` (`none` = `JSONDecodeError`),
`seen` the `seen_data` set (a list, membership up to equality), and
`lines` the decoded lines of `response.iter_lines()`.  The `break`
statements become a direct return of the final error frame followed by
the sentinel that the code emits after the loop. -/
def processLines (parse : String → Option JObj) :
    List String → List String → List Frame
  | _, [] => [Frame.done]
  | seen, line :: rest =>
    if line = "" then processLines parse seen rest
    else if startsWithStr line "event:" then processLines parse seen rest
    else if startsWithStr line "data:" then
      let data := strTrim (strDropChars line 5)
      if data ∈ seen then processLines parse seen rest
      else
        match parse data with
        | some dataJson =>
          match dataJson.transIncre with
          | some incre => Frame.content incre :: processLines parse (data :: seen) rest
          | none =>
            match dataJson.errorCode with
            | some ec =>
              if ec ≠ "0" then
                [Frame.content ("Error: " ++ dataJson.errorMsg.getD "Unknown error"), Frame.done]
              else processLines parse (data :: seen) rest
            | none => processLines parse (data :: seen) rest
        | none =>
          if containsSub "Unsupported" data then
            [Frame.content ("Error: " ++ data), Frame.done]
          else processLines parse (data :: seen) rest
    else processLines parse seen rest

/-- Entry point of the adapter: `process_sse_stream` starts with an empty
`seen_data` set. -/
def process_sse_stream (parse : String → Option JObj) (lines : List String) : List Frame :=
  processLines parse [] lines

/-- Python `truncate` (lines 70–75): `None` passes through; a string of
length at most 20 is returned unchanged; otherwise first 10 characters +
decimal length + last 10 characters. -/
def truncateStr (q : String) : String :=
  let size := q.data.length
  if size ≤ 20 then q
  else strTakeChars q 10 ++ Nat.repr size ++ strDropChars q (size - 10)

/-- The `q is None` guard of Python `truncate`. -/
def truncate : Option String → Option String
  | none => none
  | some q => some (truncateStr q)

/-- The request-body fields `addAuthParams` reads and writes (the other
form fields built in `pipe` are never touched by the signer). -/
structure RequestData where
  q : String
  salt : Option String := none
  sign : Option String := none
  signType : Option String := none
  curtime : Option String := none
  appKey : Option String := none
deriving DecidableEq

/-- Python `addAuthParams` (lines 55–68).  The per-call nonces
`str(uuid.uuid1())` and `str(int(time.time()))` are passed in as `salt`
and `curtime`; `hashlib.sha256(s.encode()).hexdigest()` is the
parameter `sha256hex`. -/
def addAuthParams (sha256hex : String → String)
    (app_key app_secret salt curtime : String) (data : RequestData) : RequestData :=
  let sign_str := app_key ++ truncateStr data.q ++ salt ++ curtime ++ app_secret
  let sign := sha256hex sign_str
  { data with
    salt := some salt
    sign := some sign
    signType := some "v3"
    curtime := some curtime
    appKey := some app_key }

/-- Outcome of the `requests.post(..)` call in `pipe`: a response carrying
the library flag `response.ok`, its `status_code` and its body lines, or a
raised exception with its message `str(e)`. -/
inductive HttpOutcome where
  | response (ok : Bool) (status : Nat) (lines : List String)
  | exn (msg : String)

/-- The frame sequence `pipe` (lines 372–398) hands to its caller: on
`not response.ok` the two-frame `error_generator`, on an exception the
two-frame handler of the `except` block, otherwise
`process_sse_stream(response)`. -/
def pipeFrames (parse : String → Option JObj) : HttpOutcome → List Frame
  | HttpOutcome.response ok status lines =>
    if !ok then
      [Frame.content ("API Error: HTTP " ++ Nat.repr status), Frame.done]
    else process_sse_stream parse lines
  | HttpOutcome.exn msg =>
    [Frame.content ("Translation error: " ++ msg), Frame.done]

/-- A concrete five-entry payload table standing in for `json.loads` when
the stream lemmas are evaluated on closed inputs. -/
def parseTable : String → Option JObj := fun s =>
  if s = "A" then some { transIncre := some "hello", errorCode := none, errorMsg := none }
  else if s = "B" then some { transIncre := some "world", errorCode := none, errorMsg := none }
  else if s = "E" then
    some { transIncre := none, errorCode := some "50", errorMsg := some "invalid signature" }
  else if s = "M" then some { transIncre := some "mix", errorCode := some "99", errorMsg := none }
  else if s = "Z" then some { transIncre := none, errorCode := some "0", errorMsg := none }
  else none

/-- The `literary` entry of `domain_keywords` (source order preserved). -/
def literary_domain_keywords : List String :=
  ["laughter", "whisper", "echo", "sound", "voice", "music", "dance", "smile", "tear",
     "heart", "soul", "spirit", "mood", "atmosphere", "scene", "moment", "memory",
     "dream", "night", "dawn", "sunset", "rain", "wind", "storm", "sea", "mountain",
     "forest", "garden", "flower", "tree", "bird", "shadow", "light", "dark", "color",
     "taste", "smell", "touch", "feel", "emotion", "feeling", "mood", "atmosphere",
     "whiskey", "wine", "bar", "cafe", "restaurant", "hotel", "room", "house", "street",
     "city", "town", "village", "country", "world", "universe", "time", "space", "life",
     "death", "love", "hate", "joy", "sorrow", "hope", "fear", "courage", "wisdom"]

/-- The `computer` entry of `domain_keywords` (source order preserved). -/
def computer_domain_keywords : List String :=
  ["program", "code", "software", "hardware", "computer", "system", "data", "algorithm", "network",
     "database", "server", "client", "api", "interface", "function", "class", "object", "variable",
     "loop", "array", "string", "integer", "float", "boolean", "debug", "compile", "runtime",
     "framework", "library", "package", "module", "dependency", "version", "git", "repository",
     "cloud", "container", "docker", "kubernetes", "microservice", "architecture", "protocol",
     "encryption", "security", "authentication", "authorization", "token", "session", "cookie"]

/-- The `medical` entry of `domain_keywords` (source order preserved). -/
def medical_domain_keywords : List String :=
  ["patient", "disease", "treatment", "symptom", "diagnosis", "medicine", "hospital", "doctor",
     "nurse", "clinic", "therapy", "surgery", "prescription", "pharmacy", "drug", "vaccine",
     "virus", "bacteria", "infection", "inflammation", "chronic", "acute", "syndrome",
     "pathology", "physiology", "anatomy", "neurology", "cardiology", "oncology", "pediatrics",
     "psychiatry", "dermatology", "ophthalmology", "orthopedics", "gynecology", "urology",
     "emergency", "intensive care", "rehabilitation", "prognosis", "mortality", "morbidity"]

/-- The `biology` entry of `domain_keywords` (source order preserved). -/
def biology_domain_keywords : List String :=
  ["cell", "gene", "protein", "organism", "species", "evolution", "biology", "genetic",
     "dna", "rna", "chromosome", "mutation", "enzyme", "metabolism", "photosynthesis",
     "respiration", "ecosystem", "biodiversity", "taxonomy", "phylogeny", "morphology",
     "physiology", "anatomy", "microbiology", "botany", "zoology", "ecology", "marine biology",
     "molecular biology", "cell biology", "developmental biology", "population genetics",
     "biochemistry", "biotechnology", "bioinformatics", "genomics", "proteomics", "transcriptomics"]

/-- The `mechanical` entry of `domain_keywords` (source order preserved). -/
def mechanical_domain_keywords : List String :=
  ["machine", "engine", "mechanical", "device", "equipment", "component", "part",
     "gear", "shaft", "bearing", "pump", "motor", "turbine", "compressor", "valve",
     "hydraulic", "pneumatic", "thermodynamics", "fluid mechanics", "heat transfer",
     "material science", "metallurgy", "welding", "casting", "forging", "machining",
     "automation", "robotics", "control system", "sensor", "actuator", "transmission",
     "clutch", "brake", "suspension", "chassis", "aerodynamics", "propulsion",
     "manufacturing", "production line", "quality control", "maintenance", "repair"]

/-- The `finance` entry of `domain_keywords` (source order preserved). -/
def finance_domain_keywords : List String :=
  ["stock", "bond", "investment", "portfolio", "market", "trading", "broker", "dividend",
     "interest", "loan", "mortgage", "credit", "debit", "account", "balance", "transaction",
     "profit", "loss", "revenue", "expense", "asset", "liability", "equity", "capital",
     "derivative", "option", "future", "hedge", "risk", "return", "yield", "valuation",
     "analysis", "forecast", "budget", "audit", "tax", "insurance", "banking", "fintech"]

/-- The `legal` entry of `domain_keywords` (source order preserved). -/
def legal_domain_keywords : List String :=
  ["law", "legal", "contract", "agreement", "clause", "statute", "regulation", "compliance",
     "litigation", "court", "judge", "jury", "attorney", "lawyer", "plaintiff", "defendant",
     "evidence", "testimony", "witness", "hearing", "trial", "appeal", "verdict", "sentence",
     "jurisdiction", "precedent", "constitution", "amendment", "legislation", "enforcement",
     "intellectual property", "patent", "copyright", "trademark", "license", "permit"]

/-- The `domain_keywords` dict (lines 130–188); a `List` keeps the
insertion order that Python dict iteration follows. -/
def domain_keywords : List (String × List String) :=
  [("literary", literary_domain_keywords), ("computer", computer_domain_keywords), ("medical", medical_domain_keywords), ("biology", biology_domain_keywords), ("mechanical", mechanical_domain_keywords), ("finance", finance_domain_keywords), ("legal", legal_domain_keywords)]

/-- The `literary` entry of `style_keywords` (source order preserved). -/
def literary_style_keywords : List String :=
  ["metaphor", "simile", "imagery", "symbol", "allegory", "personification",
     "hyperbole", "irony", "satire", "allusion", "alliteration", "assonance",
     "rhythm", "rhyme", "meter", "stanza", "verse", "prose", "narrative",
     "descriptive", "poetic", "lyrical", "elegant", "graceful", "beautiful",
     "vivid", "colorful", "rich", "deep", "profound", "meaningful", "symbolic",
     "artistic", "creative", "imaginative", "expressive", "evocative"]

/-- The `formal` entry of `style_keywords` (source order preserved). -/
def formal_style_keywords : List String :=
  ["therefore", "thus", "hence", "consequently", "furthermore", "moreover", "academic",
     "accordingly", "subsequently", "previously", "aforementioned", "aforedescribed",
     "herein", "hereto", "hereof", "hereby", "whereas", "whereof", "wherein", "whereby",
     "pursuant to", "in accordance with", "subject to", "notwithstanding", "in lieu of",
     "in the event of", "for the purpose of", "in order to", "with respect to", "with regard to"]

/-- The `casual` entry of `style_keywords` (source order preserved). -/
def casual_style_keywords : List String :=
  ["hey", "cool", "awesome", "great", "nice", "wow", "yeah", "okay", "sure", "whatever",
     "gonna", "wanna", "gotta", "kinda", "sorta", "lots", "tons", "pretty", "really",
     "totally", "absolutely", "definitely", "probably", "maybe", "guess", "think",
     "like", "you know", "right", "haha", "lol", "omg", "btw", "imo", "tbh", "idk"]

/-- The `concise` entry of `style_keywords` (source order preserved). -/
def concise_style_keywords : List String :=
  ["brief", "short", "simple", "direct", "clear", "concise", "succinct", "terse",
     "precise", "exact", "specific", "focused", "targeted", "streamlined", "efficient",
     "minimal", "essential", "core", "key", "main", "primary", "crucial", "vital",
     "critical", "important", "significant", "relevant", "pertinent", "applicable"]

/-- The `rich` entry of `style_keywords` (source order preserved). -/
def rich_style_keywords : List String :=
  ["elaborate", "detailed", "comprehensive", "thorough", "extensive", "complete",
     "exhaustive", "in-depth", "profound", "deep", "broad", "wide-ranging", "all-encompassing",
     "all-inclusive", "full", "total", "entire", "whole", "complete", "comprehensive",
     "detailed", "minute", "precise", "exact", "accurate", "specific", "particular",
     "comprehensive", "thorough", "complete", "exhaustive", "extensive", "detailed"]

/-- The `technical` entry of `style_keywords` (source order preserved). -/
def technical_style_keywords : List String :=
  ["parameter", "variable", "constant", "function", "method", "algorithm", "protocol",
     "interface", "implementation", "configuration", "initialization", "initialization",
     "deployment", "integration", "optimization", "standardization", "normalization",
     "validation", "verification", "authentication", "authorization", "encryption",
     "decryption", "compression", "decompression", "serialization", "deserialization"]

/-- The `style_keywords` dict (lines 191–233). -/
def style_keywords : List (String × List String) :=
  [("literary", literary_style_keywords), ("formal", formal_style_keywords), ("casual", casual_style_keywords), ("concise", concise_style_keywords), ("rich", rich_style_keywords), ("technical", technical_style_keywords)]

/-- The dead local `default_prompt` bound at the top of
`detect_polish_option` (lines 238–240); the function never returns it. -/
def default_prompt : String :=
  "Please translate the following text with appropriate formatting and punctuation. \nEnsure the translation maintains the original meaning while being natural and fluent in the target language. \nBreak long sentences into shorter ones where appropriate for better readability."

/-- Domain `literary` return value (lines 246–255). -/
def domain_literary_prompt : String :=
  "Please translate the following literary text with careful attention to its artistic qualities.\nMaintain the metaphorical expressions and vivid imagery while ensuring natural flow in the target language.\nPay special attention to:\n1. Preserve metaphors and similes with culturally appropriate equivalents\n2. Maintain the rhythm and flow of the text\n3. Keep the emotional impact and atmosphere\n4. Ensure proper formatting for dramatic effect\n5. Preserve the sensory details and imagery\n6. Keep the stylistic elements that create mood and tone\n7. Maintain the balance between literal meaning and artistic expression"

/-- Domain `computer` return value (lines 257–259). -/
def domain_computer_prompt : String :=
  "Please translate the following technical text with appropriate computer science terminology. \nMaintain technical accuracy while ensuring the translation is clear and understandable. \nUse proper formatting for code-related terms and technical concepts."

/-- Domain `medical` return value (lines 261–263). -/
def domain_medical_prompt : String :=
  "Please translate the following medical text with appropriate medical terminology. \nEnsure accuracy in medical terms while maintaining clarity for the target audience. \nUse proper formatting for medical conditions, procedures, and medications."

/-- Domain `biology` return value (lines 265–267). -/
def domain_biology_prompt : String :=
  "Please translate the following biological text with appropriate scientific terminology. \nMaintain accuracy in biological terms while ensuring the translation is clear and precise. \nUse proper formatting for scientific names and biological processes."

/-- Domain `mechanical` return value (lines 269–271). -/
def domain_mechanical_prompt : String :=
  "Please translate the following mechanical engineering text with appropriate technical terminology. \nEnsure accuracy in mechanical terms while maintaining clarity for the target audience. \nUse proper formatting for technical specifications and mechanical processes."

/-- Domain `finance` return value (lines 273–275). -/
def domain_finance_prompt : String :=
  "Please translate the following financial text with appropriate financial terminology. \nMaintain accuracy in financial terms while ensuring the translation is clear and professional. \nUse proper formatting for financial figures and economic concepts."

/-- Domain `legal` return value (lines 277–279). -/
def domain_legal_prompt : String :=
  "Please translate the following legal text with appropriate legal terminology. \nEnsure accuracy in legal terms while maintaining the formal tone of legal documents. \nUse proper formatting for legal citations and references."

/-- Style `literary` return value (lines 285–294). -/
def style_literary_prompt : String :=
  "Please translate the following text with careful attention to its literary qualities.\nFocus on maintaining the artistic and stylistic elements while ensuring natural expression in the target language.\nConsider:\n1. The rhythm and flow of the language\n2. The use of metaphors and imagery\n3. The emotional resonance of the text\n4. The cultural context and adaptations\n5. The balance between accuracy and artistry\n6. The preservation of stylistic devices\n7. The overall aesthetic quality of the translation"

/-- Style `formal` return value (lines 296–298). -/
def style_formal_prompt : String :=
  "Please translate the following formal text with appropriate professional language. \nMaintain the formal tone while ensuring the translation is clear and precise. \nUse proper formatting for formal documents and professional communication."

/-- Style `casual` return value (lines 300–302). -/
def style_casual_prompt : String :=
  "Please translate the following casual text with appropriate conversational language. \nMaintain the casual tone while ensuring the translation is natural and engaging. \nUse proper formatting for informal communication and everyday language."

/-- Style `concise` return value (lines 304–306). -/
def style_concise_prompt : String :=
  "Please translate the following text concisely while maintaining clarity. \nFocus on brevity and directness in the translation. \nUse proper formatting for clear and efficient communication."

/-- Style `rich` return value (lines 308–310). -/
def style_rich_prompt : String :=
  "Please translate the following text with rich detail and descriptive language. \nMaintain the detailed nature of the content while ensuring the translation is engaging. \nUse proper formatting for descriptive passages and elaborate explanations."

/-- Style `technical` return value (lines 312–314). -/
def style_technical_prompt : String :=
  "Please translate the following technical text with appropriate technical terminology. \nMaintain technical accuracy while ensuring the translation is clear and precise. \nUse proper formatting for technical specifications and processes."

/-- The final fallback return value (lines 317–325). -/
def fallback_prompt : String :=
  "Please translate the following text with attention to both meaning and style.\nEnsure the translation:\n1. Maintains the original meaning and intent\n2. Preserves any metaphorical or figurative language\n3. Keeps the natural flow and rhythm\n4. Uses appropriate formatting and punctuation\n5. Adapts cultural references when necessary\n6. Maintains the emotional tone and atmosphere\n7. Ensures readability while preserving style"

/-- The `if domain == ...: return ...` chain inside the first `for` loop
(lines 245–279).  A name with no branch would fall through to the next
loop iteration, hence the `Option`. -/
def domainBranch : String → Option (Nat × String)
  | "literary" => some (7, domain_literary_prompt)
  | "computer" => some (9, domain_computer_prompt)
  | "medical" => some (11, domain_medical_prompt)
  | "biology" => some (13, domain_biology_prompt)
  | "mechanical" => some (15, domain_mechanical_prompt)
  | "finance" => some (1, domain_finance_prompt)
  | "legal" => some (1, domain_legal_prompt)
  | _ => none

/-- The `if style == ...: return ...` chain inside the second `for` loop
(lines 284–314). -/
def styleBranch : String → Option (Nat × String)
  | "literary" => some (7, style_literary_prompt)
  | "formal" => some (1, style_formal_prompt)
  | "casual" => some (3, style_casual_prompt)
  | "concise" => some (5, style_concise_prompt)
  | "rich" => some (7, style_rich_prompt)
  | "technical" => some (9, style_technical_prompt)
  | _ => none

/-- Python `detect_polish_option` (lines 127–325): lower-case the text,
scan the domain table in declared order and return the first matching
branch, otherwise scan the style table the same way, otherwise the
fallback pair.  `dict` iteration order in Python is insertion order,
which the two `List`s reproduce. -/
def detect_polish_option (text : String) : Nat × String :=
  let text_lower := lowerStr text
  match domain_keywords.findSome? (fun p =>
      if p.2.any (fun keyword => containsSub keyword text_lower) then domainBranch p.1
      else none) with
  | some r => r
  | none =>
    match style_keywords.findSome? (fun p =>
        if p.2.any (fun keyword => containsSub keyword text_lower) then styleBranch p.1
        else none) with
    | some r => r
    | none => (7, fallback_prompt)


/-! Helper lemmas about the string primitives. -/

theorem data_append (s t : String) : (s ++ t).data = s.data ++ t.data := rfl

theorem isPrefixOf_self {α : Type} [BEq α] [LawfulBEq α] (l : List α) :
    l.isPrefixOf l = true := by
  induction l with
  | nil => rfl
  | cons a l ih => simp [List.isPrefixOf, ih]

theorem isPrefixOf_append_left {α : Type} [BEq α] [LawfulBEq α] (l m : List α) :
    l.isPrefixOf (l ++ m) = true := by
  induction l with
  | nil => simp [List.isPrefixOf]
  | cons a l ih => simp [List.isPrefixOf, ih]

theorem containsSub_append_self (a b : String) : containsSub b (a ++ b) = true := by
  unfold containsSub
  rw [data_append, List.any_eq_true]
  refine ⟨a.data.length, ?_, ?_⟩
  · rw [List.mem_range, List.length_append]
    omega
  · rw [List.drop_left]
    exact isPrefixOf_self _

theorem dataLine_ne_empty (p : String) : ("data:" ++ p) ≠ "" := by
  intro h
  have h2 : ("data:" ++ p).data = [] := by rw [h]
  rw [data_append] at h2
  simp at h2

theorem startsWith_data (p : String) : startsWithStr ("data:" ++ p) "data:" = true := by
  unfold startsWithStr
  rw [data_append]
  exact isPrefixOf_append_left _ _

theorem startsWith_event_false (p : String) :
    startsWithStr ("data:" ++ p) "event:" = false := by
  unfold startsWithStr
  rw [data_append]
  show List.isPrefixOf (['e','v','e','n','t',':']) ((['d','a','t','a',':'] : List Char) ++ p.data) = false
  simp [List.isPrefixOf]

theorem strDrop_dataLine (p : String) : strDropChars ("data:" ++ p) 5 = p := by
  unfold strDropChars
  rw [data_append]
  have h : List.drop 5 ("data:".data ++ p.data) = p.data := by
    show List.drop ("data:".data).length ("data:".data ++ p.data) = p.data
    exact List.drop_left _ _
  rw [h]

/-- C5: whenever the HTTP request fails to open (either `response.ok` is
false, or `requests.post` raises), `pipe` returns exactly two frames — an
error-content frame (mentioning the status code in the non-ok case)
followed by the terminal sentinel — instead of raising; both failure
shapes of `pipeFrames` are total Lean terms, so no exception escapes. -/
theorem C5_http_failure_two_frames (parse : String → Option JObj) (status : Nat)
    (lines : List String) (msg : String) :
    (pipeFrames parse (HttpOutcome.response false status lines) =
        [Frame.content ("API Error: HTTP " ++ Nat.repr status), Frame.done] ∧
      containsSub (Nat.repr status) ("API Error: HTTP " ++ Nat.repr status) = true) ∧
    pipeFrames parse (HttpOutcome.exn msg) =
      [Frame.content ("Translation error: " ++ msg), Frame.done] := by
  exact ⟨⟨rfl, containsSub_append_self _ _⟩, rfl⟩

/-- C6: `truncate` returns a string of length at most 20 unchanged, and for
longer strings returns first 10 characters + decimal length + last 10
characters, whose total length is 20 plus the digit count of the length. -/
theorem C6_truncate_shape (q : String) :
    (q.data.length ≤ 20 → truncate (some q) = some q) ∧
    (20 < q.data.length →
      truncate (some q) =
        some (strTakeChars q 10 ++ Nat.repr q.data.length ++
          strDropChars q (q.data.length - 10)) ∧
      (strTakeChars q 10 ++ Nat.repr q.data.length ++
          strDropChars q (q.data.length - 10)).data.length =
        20 + (Nat.repr q.data.length).data.length) := by
  constructor
  · intro h
    show some (if q.data.length ≤ 20 then q
      else strTakeChars q 10 ++ Nat.repr q.data.length ++
        strDropChars q (q.data.length - 10)) = some q
    rw [if_pos h]
  · intro h
    have hn : ¬ q.data.length ≤ 20 := by omega
    constructor
    · show some (if q.data.length ≤ 20 then q
        else strTakeChars q 10 ++ Nat.repr q.data.length ++
          strDropChars q (q.data.length - 10)) = _
      rw [if_neg hn]
    · have h1 : (strTakeChars q 10).data.length = 10 := by
        show (q.data.take 10).length = 10
        rw [List.length_take]
        omega
      have h3 : (strDropChars q (q.data.length - 10)).data.length = 10 := by
        show (q.data.drop (q.data.length - 10)).length = 10
        rw [List.length_drop]
        omega
      rw [data_append, data_append, List.length_append, List.length_append, h1, h3]
      omega

/-- Witness for C6 on a 25-character string: both branch hypotheses are
dischargeable and the long branch computes the expected value. -/
theorem C6_truncate_shape_witness :
    truncate (some "abcdefghijklmnopqrstuvwxy") =
      some (strTakeChars "abcdefghijklmnopqrstuvwxy" 10 ++
        Nat.repr ("abcdefghijklmnopqrstuvwxy" : String).data.length ++
        strDropChars "abcdefghijklmnopqrstuvwxy"
          (("abcdefghijklmnopqrstuvwxy" : String).data.length - 10)) :=
  ((C6_truncate_shape "abcdefghijklmnopqrstuvwxy").2 (by decide)).1

/-- C7: the signature field written by `addAuthParams` is the (hex SHA-256)
hash of `appKey + truncate(q) + salt + curtime + appSecret` in exactly that
concatenation order, and it is deterministic: two request bodies carrying
the same `q` receive the same signature under the same nonces and keys. -/
theorem C7_signature_concat_order (sha256hex : String → String)
    (app_key app_secret salt curtime : String) (data : RequestData) :
    (addAuthParams sha256hex app_key app_secret salt curtime data).sign =
      some (sha256hex (app_key ++ truncateStr data.q ++ salt ++ curtime ++ app_secret)) ∧
    ∀ d1 d2 : RequestData, d1.q = d2.q →
      (addAuthParams sha256hex app_key app_secret salt curtime d1).sign =
      (addAuthParams sha256hex app_key app_secret salt curtime d2).sign := by
  refine ⟨rfl, ?_⟩
  intro d1 d2 hq
  simp [addAuthParams, hq]

/-- Witness for C7: two bodies differing outside `q` get the same sign. -/
theorem C7_signature_concat_order_witness :
    (addAuthParams (fun s => s) "k" "sec" "salt" "time"
        { q := "hello", sign := some "old" }).sign =
    (addAuthParams (fun s => s) "k" "sec" "salt" "time" { q := "hello" }).sign :=
  (C7_signature_concat_order (fun s => s) "k" "sec" "salt" "time"
      { q := "hello" }).2 { q := "hello", sign := some "old" } { q := "hello" } rfl


/-- One loop iteration on a well-formed `data:` line whose payload `p` is
its own `strip` and has not been seen yet: the four-way case split of the
source (transIncre / real error / silent skip / parse failure). -/
theorem processLines_data_cons (parse : String → Option JObj)
    (seen rest : List String) (p : String)
    (hp : strTrim p = p) (hmem : p ∉ seen) :
    processLines parse seen (("data:" ++ p) :: rest) =
      (match parse p with
       | some dataJson =>
         match dataJson.transIncre with
         | some incre => Frame.content incre :: processLines parse (p :: seen) rest
         | none =>
           match dataJson.errorCode with
           | some ec =>
             if ec ≠ "0" then
               [Frame.content ("Error: " ++ dataJson.errorMsg.getD "Unknown error"),
                 Frame.done]
             else processLines parse (p :: seen) rest
           | none => processLines parse (p :: seen) rest
       | none =>
         if containsSub "Unsupported" p then
           [Frame.content ("Error: " ++ p), Frame.done]
         else processLines parse (p :: seen) rest) := by
  rw [processLines]
  rw [if_neg (dataLine_ne_empty p)]
  rw [startsWith_event_false]
  rw [if_neg (by simp)]
  rw [startsWith_data]
  rw [if_pos rfl]
  rw [strDrop_dataLine, hp]
  rw [if_neg hmem]

/-- The loop always ends by emitting the sentinel, and emits it only
there: every run of `processLines` is some list of non-sentinel frames
followed by exactly one `Frame.done`. -/
theorem processLines_ends_with_done (parse : String → Option JObj) :
    ∀ lines seen : List String, ∃ pre,
      processLines parse seen lines = pre ++ [Frame.done] ∧ Frame.done ∉ pre := by
  intro lines
  induction lines with
  | nil =>
    intro seen
    exact ⟨[], rfl, by simp⟩
  | cons line rest ih =>
    intro seen
    rw [processLines]
    by_cases h1 : line = ""
    · rw [if_pos h1]
      exact ih seen
    · rw [if_neg h1]
      cases h2 : startsWithStr line "event:" with
      | true =>
        rw [if_pos rfl]
        exact ih seen
      | false =>
        rw [if_neg (by simp)]
        cases h3 : startsWithStr line "data:" with
        | false =>
          rw [if_neg (by simp)]
          exact ih seen
        | true =>
          rw [if_pos rfl]
          by_cases h4 : strTrim (strDropChars line 5) ∈ seen
          · rw [if_pos h4]
            exact ih seen
          · rw [if_neg h4]
            cases hparse : parse (strTrim (strDropChars line 5)) with
            | none =>
              dsimp only
              by_cases h5 : containsSub "Unsupported" (strTrim (strDropChars line 5)) = true
              · rw [if_pos h5]
                exact ⟨[Frame.content ("Error: " ++ strTrim (strDropChars line 5))],
                  rfl, by simp⟩
              · rw [if_neg h5]
                exact ih _
            | some j =>
              dsimp only
              cases hti : j.transIncre with
              | some incre =>
                dsimp only
                obtain ⟨pre, hpre, hnd⟩ := ih (strTrim (strDropChars line 5) :: seen)
                exact ⟨Frame.content incre :: pre, by rw [hpre, List.cons_append], by simp [hnd]⟩
              | none =>
                dsimp only
                cases hec : j.errorCode with
                | none =>
                  dsimp only
                  exact ih _
                | some ec =>
                  dsimp only
                  by_cases h6 : ec ≠ "0"
                  · rw [if_pos h6]
                    exact ⟨[Frame.content ("Error: " ++ j.errorMsg.getD "Unknown error")],
                      rfl, by simp⟩
                  · rw [if_neg h6]
                    exact ih _

/-- C2: for every input stream of SSE lines (and any starting seen-set,
in particular the empty one `process_sse_stream` uses), the emitted frame
sequence contains exactly one terminal sentinel `data: [DONE]`, and that
sentinel is the last frame — whether the input ran out or an error caused
the early `break`. -/
theorem C2_exactly_one_trailing_sentinel (parse : String → Option JObj)
    (lines : List String) :
    ∃ pre, process_sse_stream parse lines = pre ++ [Frame.done] ∧
      Frame.done ∉ pre :=
  processLines_ends_with_done parse lines []


/-- C3: a stream of two identical `data:` lines whose payload parses with
a `transIncre` field, followed by one distinct such line, yields exactly
one content frame per distinct payload (the duplicate is silently
dropped by the seen-set) and then the terminal sentinel. -/
theorem C3_dedup_two_contents_one_sentinel (parse : String → Option JObj)
    (p q tp tq : String) (jp jq : JObj)
    (hpq : p ≠ q) (hptrim : strTrim p = p) (hqtrim : strTrim q = q)
    (hpp : parse p = some jp) (hjp : jp.transIncre = some tp)
    (hqq : parse q = some jq) (hjq : jq.transIncre = some tq) :
    process_sse_stream parse ["data:" ++ p, "data:" ++ p, "data:" ++ q] =
      [Frame.content tp, Frame.content tq, Frame.done] := by
  have htail : processLines parse [p] ["data:" ++ p, "data:" ++ q] =
      [Frame.content tq, Frame.done] := by
    rw [processLines]
    rw [if_neg (dataLine_ne_empty p), startsWith_event_false, if_neg (by simp),
      startsWith_data, if_pos rfl, strDrop_dataLine, hptrim]
    rw [if_pos (List.mem_singleton.mpr rfl)]
    rw [processLines_data_cons parse [p] [] q hqtrim
      (fun h => hpq (List.mem_singleton.mp h).symm), hqq]
    dsimp only
    rw [hjq]
    dsimp only
    rfl
  unfold process_sse_stream
  rw [processLines_data_cons parse [] _ p hptrim (List.not_mem_nil p), hpp]
  dsimp only
  rw [hjp]
  dsimp only
  rw [htail]

/-- Witness for C3: concrete duplicated payload `A` and distinct `B`. -/
theorem C3_dedup_two_contents_one_sentinel_witness :
    process_sse_stream parseTable ["data:" ++ "A", "data:" ++ "A", "data:" ++ "B"] =
      [Frame.content "hello", Frame.content "world", Frame.done] :=
  C3_dedup_two_contents_one_sentinel parseTable "A" "B" "hello" "world"
    { transIncre := some "hello", errorCode := none, errorMsg := none }
    { transIncre := some "world", errorCode := none, errorMsg := none }
    (by decide) (by decide) (by decide) (by decide) rfl (by decide) rfl

/-- C4: a first `data:` line whose payload carries `errorCode "50"` and
`errorMsg "invalid signature"` (and no `transIncre`) produces exactly one
error-content frame whose text contains the message, then the sentinel,
and the remaining input lines are never consumed (the result does not
depend on `rest`). -/
theorem C4_error_frame_then_stop (parse : String → Option JObj) (e : String)
    (je : JObj) (rest : List String) (hetrim : strTrim e = e)
    (hpe : parse e = some je) (hti : je.transIncre = none)
    (hec : je.errorCode = some "50") (hem : je.errorMsg = some "invalid signature") :
    process_sse_stream parse (("data:" ++ e) :: rest) =
      [Frame.content ("Error: " ++ "invalid signature"), Frame.done] ∧
    containsSub "invalid signature" ("Error: " ++ "invalid signature") = true := by
  constructor
  · unfold process_sse_stream
    rw [processLines_data_cons parse [] rest e hetrim (List.not_mem_nil e), hpe]
    dsimp only
    rw [hti]
    dsimp only
    rw [hec]
    dsimp only
    rw [if_pos (by decide : ("50" : String) ≠ "0")]
    rw [hem]
    rfl
  · exact containsSub_append_self "Error: " "invalid signature"

/-- Witness for C4: the error payload `E` followed by an unread line. -/
theorem C4_error_frame_then_stop_witness :
    process_sse_stream parseTable (("data:" ++ "E") :: ["data:" ++ "A"]) =
      [Frame.content ("Error: " ++ "invalid signature"), Frame.done] ∧
    containsSub "invalid signature" ("Error: " ++ "invalid signature") = true :=
  C4_error_frame_then_stop parseTable "E"
    { transIncre := none, errorCode := some "50", errorMsg := some "invalid signature" }
    ["data:" ++ "A"] (by decide) (by decide) rfl rfl rfl

/-- C9: when an unseen payload parses with both a `transIncre` field and a
non-zero `errorCode`, the `transIncre` branch wins: one ordinary content
frame is emitted and the loop keeps consuming `rest` (no error frame, no
early stop). -/
theorem C9_transIncre_beats_errorCode (parse : String → Option JObj)
    (seen rest : List String) (p t c : String) (j : JObj)
    (hptrim : strTrim p = p) (hmem : p ∉ seen)
    (hpp : parse p = some j) (hti : j.transIncre = some t)
    (hec : j.errorCode = some c) (hc : c ≠ "0") :
    processLines parse seen (("data:" ++ p) :: rest) =
      Frame.content t :: processLines parse (p :: seen) rest := by
  rw [processLines_data_cons parse seen rest p hptrim hmem, hpp]
  dsimp only
  rw [hti]

/-- Witness for C9: payload `M` has `transIncre "mix"` and `errorCode "99"`. -/
theorem C9_transIncre_beats_errorCode_witness :
    processLines parseTable [] (("data:" ++ "M") :: ["data:" ++ "A"]) =
      Frame.content "mix" :: processLines parseTable ("M" :: []) ["data:" ++ "A"] :=
  C9_transIncre_beats_errorCode parseTable [] ["data:" ++ "A"] "M" "mix" "99"
    { transIncre := some "mix", errorCode := some "99", errorMsg := none }
    (by decide) (by decide) (by decide) rfl rfl (by decide)

/-- C10: an unseen payload that parses but has neither `transIncre` nor an
`errorCode` different from `"0"` emits nothing: the run equals the run on
the remaining lines with the payload added to the seen-set. -/
theorem C10_no_frame_but_recorded (parse : String → Option JObj)
    (seen rest : List String) (p : String) (j : JObj)
    (hptrim : strTrim p = p) (hmem : p ∉ seen)
    (hpp : parse p = some j) (hti : j.transIncre = none)
    (hec : j.errorCode = none ∨ j.errorCode = some "0") :
    processLines parse seen (("data:" ++ p) :: rest) =
      processLines parse (p :: seen) rest := by
  rw [processLines_data_cons parse seen rest p hptrim hmem, hpp]
  dsimp only
  rw [hti]
  dsimp only
  rcases hec with h | h
  · rw [h]
  · rw [h]
    dsimp only
    rw [if_neg (by simp)]

/-- Witness for C10: payload `Z` has `errorCode "0"` and no `transIncre`. -/
theorem C10_no_frame_but_recorded_witness :
    processLines parseTable [] (("data:" ++ "Z") :: ["data:" ++ "A"]) =
      processLines parseTable ("Z" :: []) ["data:" ++ "A"] :=
  C10_no_frame_but_recorded parseTable [] ["data:" ++ "A"] "Z"
    { transIncre := none, errorCode := some "0", errorMsg := none }
    (by decide) (by decide) (by decide) rfl (Or.inr rfl)


set_option maxRecDepth 400000

/-- C1 (amended): if the lower-cased text matches no literary-domain
keyword but matches some computer-domain keyword, the classifier returns
polishOption 9 with the computer prompt, regardless of any style keywords
present — the `literary` domain entry precedes `computer` in the scan
order, so only its keywords can pre-empt the computer branch. -/
theorem C1_computer_wins_without_literary (text : String)
    (hlit : literary_domain_keywords.any
      (fun keyword => containsSub keyword (lowerStr text)) = false)
    (hcomp : computer_domain_keywords.any
      (fun keyword => containsSub keyword (lowerStr text)) = true) :
    detect_polish_option text = (9, domain_computer_prompt) := by
  have hfind : domain_keywords.findSome? (fun p =>
      if p.2.any (fun keyword => containsSub keyword (lowerStr text)) then domainBranch p.1
      else none) = some (9, domain_computer_prompt) := by
    rw [domain_keywords, List.findSome?_cons]
    dsimp only
    rw [hlit, if_neg (by simp), List.findSome?_cons]
    dsimp only
    rw [hcomp, if_pos rfl]
    rfl
  unfold detect_polish_option
  dsimp only
  rw [hfind]

/-- Witness for C1 (amended): the text `algorithm` — which is itself also
a `technical` style keyword — classifies as computer domain. -/
theorem C1_computer_wins_without_literary_witness :
    detect_polish_option "algorithm" = (9, domain_computer_prompt) :=
  C1_computer_wins_without_literary "algorithm" (by decide) (by decide)

/-- Counterexample to C1 as stated: `light algorithm` contains the
computer-domain keyword `algorithm`, yet the classifier does not return
the computer pair — the literary-domain keyword `light` is found first. -/
theorem C1_counterexample_literary_preempts :
    containsSub "algorithm" (lowerStr "light algorithm") = true ∧
    detect_polish_option "light algorithm" ≠ (9, domain_computer_prompt) := by
  constructor
  · decide
  · decide

/-- C8: a text whose lower-cased form matches no domain keyword and no
style keyword falls through both scans to the default pair
(7, generic style+meaning prompt). -/
theorem C8_default_fallback (text : String)
    (hd : domain_keywords.all (fun p => p.2.all
      (fun keyword => !containsSub keyword (lowerStr text))) = true)
    (hs : style_keywords.all (fun p => p.2.all
      (fun keyword => !containsSub keyword (lowerStr text))) = true) :
    detect_polish_option text = (7, fallback_prompt) := by
  have hnone : ∀ (tbl : List (String × List String))
      (branch : String → Option (Nat × String)),
      tbl.all (fun p => p.2.all
        (fun keyword => !containsSub keyword (lowerStr text))) = true →
      tbl.findSome? (fun p =>
        if p.2.any (fun keyword => containsSub keyword (lowerStr text)) then branch p.1
        else none) = none := by
    intro tbl branch htbl
    rw [List.findSome?_eq_none_iff]
    intro p hp
    have hall := List.all_eq_true.mp htbl p hp
    have hany : p.2.any (fun keyword => containsSub keyword (lowerStr text)) = false := by
      rw [List.any_eq_false]
      intro x hx
      have hx2 := List.all_eq_true.mp hall x hx
      simp at hx2
      simp [hx2]
    rw [hany, if_neg (by simp)]
  unfold detect_polish_option
  dsimp only
  rw [hnone domain_keywords domainBranch hd]
  rw [hnone style_keywords styleBranch hs]

/-- Witness for C8: the empty text matches nothing and falls through. -/
theorem C8_default_fallback_witness :
    detect_polish_option "" = (7, fallback_prompt) :=
  C8_default_fallback "" (by decide) (by decide)

end Youdao
